import Mathlib

/-!
# Hookwise alert-to-ticket pipeline: shallow embedding and verification

This file embeds the core webhook-processing pipeline of the hookwise
repository (`hookwise/tasks.py`, `hookwise/client.py`, `hookwise/utils.py`)
as executable Lean definitions and proves/refutes the frozen claims about it.

Conventions of the embedding:
* Python strings are Lean `String`s; Python `None`-or-string values are
  `Option String`; Python truthiness of such a value is `truthy`
  (`None` and `""` are falsy).
* `resolve_jsonpath(data, path)` is modelled by a parameter
  `resolve : String → Option String`: the jsonpath_ng collaborator applied to
  the fixed request payload, returning the already-stringified match value
  (`none` = no match / parse error, exactly the `None` return in utils.py).
* `re.search(regex, val, re.IGNORECASE)` is modelled by a parameter
  `matcher : String → String → Bool` (regex, value); theorems about routing
  quantify over the matcher.
* Redis is a list of (key, value, expiry-instant) triples plus an explicit
  clock `now : Nat` (seconds); `set key v ex=ttl` stores expiry `now + ttl`.
* The ConnectWise ticket store is a list of (id, ticket-state) pairs; the
  HTTP client methods of `client.py` are modelled as queries/updates of that
  list (a request for an id absent from the list is the 404 / request-failure
  path, which the client catches and turns into `None`/`False`).
-/

namespace Hookwise

/-! ### Python string primitives

Implemented over `String.data` (the character list) so that every definition
reduces inside the kernel on concrete inputs. -/

/-- Splitting on a single-character separator, Python `str.split(sep)`:
empty pieces are kept. -/
def splitCharAux (sep : Char) : List Char → List Char → List (List Char)
  | [], acc => [acc.reverse]
  | c :: cs, acc =>
      if c = sep then acc.reverse :: splitCharAux sep cs []
      else splitCharAux sep cs (c :: acc)

/-- Python `s.split(sep)` for a one-character separator. -/
def pySplit (s : String) (sep : Char) : List String :=
  (splitCharAux sep s.data []).map String.mk

/-- Python whitespace test used by `str.strip()` (the characters relevant to
this code base). -/
def isWS (c : Char) : Bool :=
  c = ' ' || c = '\t' || c = '\n' || c = '\r'

/-- Python `s.strip()`. -/
def pyTrim (s : String) : String :=
  String.mk (((s.data.dropWhile isWS).reverse.dropWhile isWS).reverse)

/-- `tok.startswith("$")`. -/
def startsWithDollar (s : String) : Bool :=
  match s.data with
  | c :: _ => c = '$'
  | [] => false

/-- `request_id.startswith(pfx)` for a literal prefix. -/
def pyStartsWith (s pfx : String) : Bool :=
  pfx.data.isPrefixOf s.data

/-- `" ".join(parts)`. -/
def joinSpace (l : List String) : String :=
  String.mk (((l.map String.data).intersperse [' ']).flatten)

/-- `c in s` for a character. -/
def containsChar (s : String) (c : Char) : Bool :=
  s.data.contains c

/-- Python `len(s)` (code points). -/
def pyLen (s : String) : Nat := s.data.length

/-- `s[:n]`. -/
def pyTake (s : String) (n : Nat) : String := String.mk (s.data.take n)

/-- `int(s)` restricted to decimal digit strings; `none` models the
`ValueError` path (the callers below also reject the values Python's `int`
would accept but the subsequent `datetime.replace` would throw on). -/
def natOfString? (s : String) : Option Nat :=
  if s.data ≠ [] ∧ s.data.all Char.isDigit then
    some (s.data.foldl (fun n c => n * 10 + (c.toNat - 48)) 0)
  else none

/-- One replacement pass of Python `s.replace(pat, rep)` over the character
list (all non-overlapping occurrences, left to right; an empty pattern leaves
the list unchanged, matching `replace("", "")`). -/
def replaceList (pat rep : List Char) : List Char → List Char
  | [] => []
  | c :: cs =>
      if h : pat ≠ [] ∧ pat.isPrefixOf (c :: cs) then
        rep ++ replaceList pat rep ((c :: cs).drop pat.length)
      else
        c :: replaceList pat rep cs
  termination_by l => l.length
  decreasing_by
    · simp only [List.length_drop, List.length_cons]
      have : 1 ≤ pat.length := by
        cases hp : pat with
        | nil => exact absurd hp h.1
        | cons a b => simp
      omega
    · simp

/-- Python `s.replace(pat, rep)`. -/
def pyReplace (s pat rep : String) : String :=
  String.mk (replaceList pat.data rep.data s.data)

/-- Python `a or b` for an optional string `a` with default `b`
(`None` and `""` both fall through to the default). -/
def pyOr (o : Option String) (d : String) : String :=
  match o with
  | some s => if s = "" then d else s
  | none => d

/-- Python `str(x)` applied to the result of `resolve_jsonpath`:
a missing lookup (`None`) stringifies to the literal `"None"`. -/
def pyStr (o : Option String) : String :=
  match o with
  | some s => s
  | none => "None"

/-- Python truthiness of a `None`-or-string value. -/
def truthy (o : Option String) : Bool :=
  match o with
  | some s => s ≠ ""
  | none => false

/-- `needle in hay` / `summary contains` semantics: substring containment
on the underlying character list. -/
def strContains (hay needle : String) : Bool :=
  (List.range (hay.data.length + 1)).any fun i => needle.data.isPrefixOf (hay.data.drop i)

/-! ## Field Mapping Resolver (tasks.py lines 368-424)

A mapping value containing whitespace is treated as a template of
whitespace-separated tokens; `$`-prefixed tokens are jsonpath variables,
the rest are literals (regex `(\$\S+|[^\s]+)`, i.e. maximal non-space runs). -/

/-- `token_re.findall(mapping_val)`: the maximal non-whitespace runs of the
template string (both regex alternatives match maximal non-space runs). -/
def tokenize (s : String) : List String :=
  (pySplit s ' ').filter (· ≠ "")

/-- Resolve one token: a `$`-token resolves via jsonpath and contributes its
stripped value when non-empty (`(str(r_val).strip(), True)`), an empty pair
`("", True)` when it fails or is empty; a literal contributes `(tok, False)`. -/
def resolveToken (resolve : String → Option String) (tok : String) : String × Bool :=
  if startsWithDollar tok then
    match resolve tok with
    | some r => if pyTrim r ≠ "" then (pyTrim r, true) else ("", true)
    | none => ("", true)
  else (tok, false)

/-- `any_jsonpath_resolved`: some variable token resolved non-empty. -/
def hasRV (l : List (String × Bool)) : Bool :=
  l.any fun p => p.2 && decide (p.1 ≠ "")

/-- The `output_parts` loop: a variable contributes its value when non-empty;
a literal at position `i` is included iff some variable with a non-empty value
occurs anywhere before it (`left_ok`) or anywhere after it (`right_ok`).
`pre` is the already-traversed prefix, `rest` the remaining tokens. -/
def outputParts (pre rest : List (String × Bool)) : List String :=
  match rest with
  | [] => []
  | (v, true) :: tl =>
      (if v ≠ "" then [v] else []) ++ outputParts (pre ++ [(v, true)]) tl
  | (v, false) :: tl =>
      (if hasRV pre || hasRV tl then [v] else []) ++ outputParts (pre ++ [(v, false)]) tl

/-- Template resolution for a whitespace-containing mapping value
(tasks.py lines 386-420): tokenize, resolve each token, and when at least one
variable resolved join the surviving parts with single spaces; otherwise the
field stays unset. -/
def resolveTemplate (resolve : String → Option String) (mappingVal : String) :
    Option String :=
  let resolved := (tokenize mappingVal).map (resolveToken resolve)
  if hasRV resolved then
    let parts := outputParts [] resolved
    if parts ≠ [] then some (joinSpace parts) else none
  else none

/-- One field of the json mapping (tasks.py lines 384-424): template logic for
whitespace-containing values, plain jsonpath lookup otherwise
(`str(mapped_raw)` of a hit, unset on a miss). -/
def mapField (resolve : String → Option String) (mappingVal : String) :
    Option String :=
  if containsChar mappingVal ' ' then resolveTemplate resolve mappingVal
  else resolve mappingVal

/-- The list every surviving token should equal when some variable resolved:
all literals, plus the non-empty variable values, in order. -/
def keepAll (l : List (String × Bool)) : List String :=
  l.filterMap fun p => if p.2 then (if p.1 ≠ "" then some p.1 else none) else some p.1

/-! ## Trigger Classifier (tasks.py lines 481-494) -/

inductive AlertType where
  | DOWN
  | UP
  | GENERIC
deriving DecidableEq, Repr

/-- `[v.strip() for v in value.split(",") if v.strip()]`. -/
def splitTriggers (s : String) : List String :=
  ((pySplit s ',').map pyTrim).filter (· ≠ "")

/-- Exact string membership in the open list ⇒ DOWN, in the close list ⇒ UP,
otherwise GENERIC. -/
def classifyVal (actualVal : String) (openTriggers closeTriggers : List String) :
    AlertType :=
  if actualVal ∈ openTriggers then .DOWN
  else if actualVal ∈ closeTriggers then .UP
  else .GENERIC

/-! ## Routing Rule Engine (tasks.py lines 443-479) -/

/-- One routing rule `{path, regex, overrides}`.  `path`/`regex` are `""` when
the key is missing or null (the code only checks their truthiness, under which
`None` and `""` behave identically).  `overrides` is the parsed overrides
object restricted to its string-valued entries; `drop` is the truthiness of
`overrides.get("drop")`. -/
structure Rule where
  path : String
  regex : String
  overrides : List (String × String)
  drop : Bool
deriving DecidableEq, Repr

def ovLookup (ov : List (String × String)) (k : String) : Option String :=
  (ov.find? (fun p => p.1 = k)).map (fun p => p.2)

/-- The mutable per-request ticket fields the routing loop can override. -/
structure TicketFields where
  board : Option String
  status : Option String
  ticket_type : Option String
  subtype : Option String
  item : Option String
  priority : Option String
deriving DecidableEq, Repr

/-- The six `if "…" in rule_overrides` assignments (tasks.py lines 468-479):
only board, status, ticket_type, subtype, item and priority are read;
any other key of the overrides object is ignored. -/
def applyOverrides (f : TicketFields) (ov : List (String × String)) : TicketFields :=
  let f := match ovLookup ov "board" with
    | some v => { f with board := some v }
    | none => f
  let f := match ovLookup ov "status" with
    | some v => { f with status := some v }
    | none => f
  let f := match ovLookup ov "ticket_type" with
    | some v => { f with ticket_type := some v }
    | none => f
  let f := match ovLookup ov "subtype" with
    | some v => { f with subtype := some v }
    | none => f
  let f := match ovLookup ov "item" with
    | some v => { f with item := some v }
    | none => f
  match ovLookup ov "priority" with
  | some v => { f with priority := some v }
  | none => f

/-- Result of the routing loop: either a `drop` short-circuit (with the state
at that moment) or the final field set; `evaluated` counts the rules the loop
examined. -/
inductive RouteResult where
  | dropped (regex : String) (fields : TicketFields) (matchedRule : Option String)
      (evaluated : Nat)
  | done (fields : TicketFields) (matchedRule : Option String) (evaluated : Nat)
deriving DecidableEq, Repr

/-- The routing loop (tasks.py lines 444-479): rules strictly in list order;
a rule takes part only when both `path` and `regex` are truthy; the resolved
path value is stringified (`str(resolve_jsonpath(...))`, so a missing path
becomes `"None"`) and searched by the regex engine; on a match the
matched-rule note is recorded, a truthy `drop` override returns immediately,
otherwise the six field overrides are applied and the loop continues. -/
def applyRules (resolve : String → Option String) (matcher : String → String → Bool)
    (f : TicketFields) (mr : Option String) : List Rule → RouteResult
  | [] => .done f mr 0
  | r :: rs =>
      let step :=
        if r.path ≠ "" ∧ r.regex ≠ "" then
          if matcher r.regex (pyStr (resolve r.path)) then
            let mr' := some ("Match: " ++ r.regex ++ " on " ++ r.path)
            if r.drop then
              RouteResult.dropped r.regex f mr' 0
            else
              applyRules resolve matcher (applyOverrides f r.overrides) mr' rs
          else applyRules resolve matcher f mr rs
        else applyRules resolve matcher f mr rs
      match step with
      | .dropped re fl m n => .dropped re fl m (n + 1)
      | .done fl m n => .done fl m (n + 1)

/-! ## Maintenance Window Evaluator (tasks.py lines 231-282)

The `try` block wraps the **whole** `for window in windows` loop: an exception
raised while handling one window aborts the entire evaluation (the function
logs and returns `False`).  `Except Unit` models the exception. -/

/-- One parsed maintenance-window JSON object.  `wtype`/`wstart`/`wend` are
the values of `"type"`/`"start"`/`"end"` (`none` = key missing; a JSON `null`
type tag is not distinguished from a missing one, which only matters for the
never-exercised `null` case).  `days` is `window.get("days", [])`. -/
structure Window where
  wtype : Option String
  wstart : Option String
  wend : Option String
  days : List String
deriving DecidableEq, Repr

/-- The current instant (`datetime.now(timezone.utc)`), split into the pieces
the evaluator reads. -/
structure MNow where
  year : Nat
  month : Nat
  day : Nat
  hour : Nat
  minute : Nat
  second : Nat
  weekday : String
deriving DecidableEq, Repr

/-- Order-preserving encoding of a date-time (components are range-checked by
the parser, so lexicographic component order coincides with real time order). -/
def encodeDT (y mo d h mi s : Nat) : Nat :=
  ((((y * 13 + mo) * 32 + d) * 24 + h) * 60 + mi) * 60 + s

def encodeNow (n : MNow) : Nat :=
  encodeDT n.year n.month n.day n.hour n.minute n.second

def nowTimeSec (n : MNow) : Nat :=
  n.hour * 3600 + n.minute * 60 + n.second

/-- `s_h, s_m = map(int, start_str.split(":"))` followed by
`now.replace(hour=s_h, minute=s_m, ...)`: exactly two `:`-separated numeric
components, in clock range (out-of-range values make `replace` raise). -/
def parseHM (s : String) : Except Unit (Nat × Nat) :=
  match pySplit s ':' with
  | [a, b] =>
      match natOfString? a, natOfString? b with
      | some h, some m => if h ≤ 23 ∧ m ≤ 59 then .ok (h, m) else .error ()
      | _, _ => .error ()
  | _ => .error ()

/-- A date component list `[YYYY, MM, DD]` with the zero-padding
`fromisoformat` requires. -/
def parseIsoDate (s : String) : Except Unit (Nat × Nat × Nat) :=
  match pySplit s '-' with
  | [y, mo, d] =>
      match natOfString? y, natOfString? mo, natOfString? d with
      | some yv, some mov, some dv =>
          if pyLen y = 4 ∧ pyLen mo = 2 ∧ pyLen d = 2 ∧
              1 ≤ mov ∧ mov ≤ 12 ∧ 1 ≤ dv ∧ dv ≤ 31 then
            .ok (yv, mov, dv)
          else .error ()
      | _, _, _ => .error ()
  | _ => .error ()

def parseIsoTime (s : String) : Except Unit (Nat × Nat × Nat) :=
  match pySplit s ':' with
  | [h, mi] =>
      match natOfString? h, natOfString? mi with
      | some hv, some miv =>
          if pyLen h = 2 ∧ pyLen mi = 2 ∧ hv ≤ 23 ∧ miv ≤ 59 then .ok (hv, miv, 0)
          else .error ()
      | _, _ => .error ()
  | [h, mi, se] =>
      match natOfString? h, natOfString? mi, natOfString? se with
      | some hv, some miv, some sev =>
          if pyLen h = 2 ∧ pyLen mi = 2 ∧ pyLen se = 2 ∧
              hv ≤ 23 ∧ miv ≤ 59 ∧ sev ≤ 59 then
            .ok (hv, miv, sev)
          else .error ()
      | _, _, _ => .error ()
  | _ => .error ()

/-- `datetime.fromisoformat(s.replace("Z", "+00:00"))`, restricted to the
`YYYY-MM-DD[THH:MM[:SS]][+00:00]` shapes (other strings are the `ValueError`
path).  Returns the order-encoded instant and whether the value is
timezone-aware (`+00:00` suffix present, e.g. from a trailing `Z`). -/
def parseIso (s : String) : Except Unit (Nat × Bool) :=
  let s1 := pyReplace s "Z" "+00:00"
  let aware := "+00:00".data.isSuffixOf s1.data
  let body := if aware then String.mk (s1.data.take (s1.data.length - 6)) else s1
  match pySplit body 'T' with
  | [d] => do
      let (y, mo, dv) ← parseIsoDate d
      return (encodeDT y mo dv 0 0 0, aware)
  | [d, t] => do
      let (y, mo, dv) ← parseIsoDate d
      let (h, mi, se) ← parseIsoTime t
      return (encodeDT y mo dv h mi se, aware)
  | _ => .error ()

/-- Evaluate one window against the current instant; `.error` models an
exception escaping the window handling (malformed entry).  Mirrors
tasks.py lines 243-278 including the `continue` on a missing/empty start or
end, the weekday filter, the same-day versus overnight ranges, and the
aware/naive comparison `TypeError` for `once` windows (Python's chained
`start <= now <= end` short-circuits, so a naive `end` only raises when
`start <= now` held). -/
def checkWindow (w : Window) (n : MNow) : Except Unit Bool :=
  let wt := w.wtype.getD "once"
  if ¬ truthy w.wstart ∨ ¬ truthy w.wend then .ok false
  else
    let startStr := pyStr w.wstart
    let endStr := pyStr w.wend
    if wt = "once" then do
      let (st, stAware) ← parseIso startStr
      if ¬ stAware then .error ()
      else if ¬ (st ≤ encodeNow n) then .ok false
      else do
        let (en, enAware) ← parseIso endStr
        if ¬ enAware then .error ()
        else .ok (encodeNow n ≤ en)
    else if wt = "daily" ∨ wt = "weekly" then
      if wt = "weekly" ∧ n.weekday ∉ w.days then .ok false
      else do
        let (sh, sm) ← parseHM startStr
        let (eh, em) ← parseHM endStr
        let startTime := sh * 3600 + sm * 60
        let endTime := eh * 3600 + em * 60
        if startTime < endTime then
          .ok (startTime ≤ nowTimeSec n ∧ nowTimeSec n ≤ endTime)
        else
          .ok (nowTimeSec n ≥ startTime ∨ nowTimeSec n ≤ endTime)
    else .ok false

/-- The `for window in windows` loop: first active window returns `True`; an
exception from any window aborts the whole loop. -/
def evalWindows (n : MNow) : List Window → Except Unit Bool
  | [] => .ok false
  | w :: ws => do
      let b ← checkWindow w n
      if b then .ok true else evalWindows n ws

/-- `is_in_maintenance` (tasks.py lines 231-282): falsy/absent window spec is
`False`; any exception — including a malformed entry part-way through the
list — is caught around the loop and yields `False` (fail open for the whole
list). -/
def is_in_maintenance (mw : Option (List Window)) (n : MNow) : Bool :=
  match mw with
  | none => false
  | some ws =>
      match evalWindows n ws with
      | .ok b => b
      | .error _ => false

/-! ## Tenant/Company Resolver (tasks.py lines 593-679) -/

/-- One TenantMapping row.  The `GlobalMapping` model class itself is declared
outside src/; its fields are fixed by its in-src callers
(`hookwise/routing.py`, `hookwise/tenantmap.py`: `tenant_value`, `company_id`,
`description`) and by spec §3 (TenantMapping). -/
structure GlobalMapping where
  tenant_value : String
  company_id : String
deriving DecidableEq, Repr

/-- `fnmatch.fnmatch` on POSIX for the `*`/`?` wildcards and literal
characters (`[seq]` classes are not modelled; no configuration in this
repository uses them). -/
def globMatch : List Char → List Char → Bool
  | [], [] => true
  | [], _ :: _ => false
  | '*' :: ps, [] => globMatch ps []
  | '*' :: ps, c :: s => globMatch ps (c :: s) || globMatch ('*' :: ps) s
  | '?' :: ps, _ :: s => globMatch ps s
  | '?' :: _, [] => false
  | p :: ps, c :: s => p = c && globMatch ps s
  | _ :: _, [] => false
  termination_by p s => (p.length, s.length)

def fnmatch (name pat : String) : Bool :=
  globMatch pat.data name.data

def hasWildcard (s : String) : Bool :=
  containsChar s '*' || containsChar s '?'

/-- An apostrophe character, used by the literal prompt strings below. -/
def squote : String := String.singleton (Char.ofNat 39)

def joinCommaSpace (l : List String) : String :=
  String.mk (((l.map String.data).intersperse [',', ' ']).flatten)

/-- The exact LLM prompt built at tasks.py lines 650-655. -/
def llmPromptFor (tenantVal companiesStr : String) : String :=
  "Match this incoming tenant string: " ++ squote ++ tenantVal ++ squote ++
    " to the best option from this list of company identifiers from ConnectWise: " ++
    companiesStr ++ ". Respond with ONLY the exact string from the list that matches best. " ++
    "If none match reasonably well, reply with exactly " ++ squote ++ "NONE" ++ squote ++ "."

/-- `available_companies`: the truthy identifiers of the fetched company
directory (each directory row modelled by its optional identifier). -/
def availableCompanies (companies : List (Option String)) : List String :=
  companies.filterMap fun c =>
    match c with
    | some s => if s ≠ "" then some s else none
    | none => none

/-- The wildcard step (tasks.py lines 617-634): among the mapping rows whose
`tenant_value` contains `*` or `?`, the first truthy row that `fnmatch`es the
tenant value. -/
def wildcardLookup (mappings : List GlobalMapping) (tenantVal : String) :
    Option GlobalMapping :=
  (mappings.filter (fun m => hasWildcard m.tenant_value)).find?
    (fun m => m.tenant_value ≠ "" ∧ fnmatch tenantVal m.tenant_value)

structure TenantResolution where
  company : Option String
  llmConsulted : Bool
  trace : Option String
deriving DecidableEq, Repr

/-- The mapping cascade given an extracted truthy `tenant_val`
(tasks.py lines 612-675): exact `tenant_value` match, then the first
wildcard-bearing row that `fnmatch`es, then — only with no mapping row — the
LLM pick over the live company directory, accepted only when it is verbatim
one of the offered identifiers and not `"NONE"`.  `llm` is the
`call_llm` collaborator: it returns `none` on any error (utils.py catches all
exceptions), and `companies = []` is the `get_companies` failure/empty result
(client.py catches request errors and returns `[]`). -/
def resolveTenantBlock (mappings : List GlobalMapping)
    (companies : List (Option String)) (llm : String → Option String)
    (tenantVal : String) : TenantResolution :=
  let exact := mappings.find? (fun m => m.tenant_value = tenantVal)
  match exact with
  | some m =>
      { company := some m.company_id, llmConsulted := false,
        trace := some (" [Global: " ++ tenantVal ++ "]") }
  | none =>
      match wildcardLookup mappings tenantVal with
      | some m =>
          { company := some m.company_id, llmConsulted := false,
            trace := some (" [Global: " ++ tenantVal ++ "]") }
      | none =>
          if companies ≠ [] then
            let available := availableCompanies companies
            if available ≠ [] then
              let prompt := llmPromptFor tenantVal (joinCommaSpace available)
              match llm prompt with
              | some resp =>
                  if resp ≠ "" ∧ pyTrim resp ≠ "NONE" ∧ pyTrim resp ∈ available then
                    { company := some (pyTrim resp), llmConsulted := true,
                      trace := some (" [LLM Global: " ++ tenantVal ++ " -> " ++
                        pyTrim resp ++ "]") }
                  else { company := none, llmConsulted := true, trace := none }
              | none => { company := none, llmConsulted := true, trace := none }
            else { company := none, llmConsulted := false, trace := none }
          else { company := none, llmConsulted := false, trace := none }

/-- `x or y` where both sides are `None`-or-string. -/
def pyOrOpt (a b : Option String) : Option String :=
  if truthy a then a else b

/-- Tenant-token extraction (tasks.py lines 601-610): the first of
`Tenant, tenant, tenantId, TenantId` whose top-level or `TaskInfo`-nested
lookup is truthy. -/
def extractTenant (resolve : String → Option String) : Option String :=
  ((["Tenant", "tenant", "tenantId", "TenantId"].map fun tf =>
    pyOrOpt (resolve ("$." ++ tf)) (resolve ("$.TaskInfo." ++ tf))).find? truthy).bind id

/-! ## ConnectWise client model (client.py) and the Redis cache -/

/-- The observable state of one ConnectWise ticket. -/
structure Ticket where
  summary : String
  closedFlag : Bool
  statusName : String
deriving DecidableEq, Repr

/-- Mutable collaborator state threaded through the pipeline: the Redis cache
(key, value, absolute expiry instant), the ticket store, and call counters for
each ticketing-gateway operation. -/
structure World where
  cache : List (String × String × Nat)
  tickets : List (Nat × Ticket)
  getCalls : Nat
  createCalls : Nat
  noteCalls : Nat
  closeCalls : Nat
  findCalls : Nat
deriving DecidableEq, Repr

def cacheGet (w : World) (now : Nat) (k : String) : Option String :=
  match w.cache.find? (fun e => e.1 = k) with
  | some e => if now < e.2.2 then some e.2.1 else none
  | none => none

def cacheSet (w : World) (now : Nat) (k v : String) (ttl : Nat) : World :=
  { w with cache := (k, v, now + ttl) :: w.cache.filter (fun e => e.1 ≠ k) }

def cacheDel (w : World) (k : String) : World :=
  { w with cache := w.cache.filter (fun e => e.1 ≠ k) }

/-- Environment-derived constants of tasks.py/client.py with their defaults:
`CW_TICKET_PREFIX` (`"Alert:"`), the client's `status_closed`
(`CW_STATUS_CLOSED`, default `"Closed"`) and `status_new` (`CW_STATUS_NEW`,
default `"New"`), and `VIABILITY_TTL` (default 300). -/
structure Env where
  cwTicketPrefix : String
  statusClosed : String
  statusNew : String
  viabilityTTL : Nat
deriving DecidableEq, Repr

def defaultEnv : Env :=
  { cwTicketPrefix := "Alert:", statusClosed := "Closed", statusNew := "New",
    viabilityTTL := 300 }

def CACHE_TTL : Nat := 3600 * 24

/-- `get_ticket` (client.py lines 79-88): `none` is the request-failure /
404 path that the client catches and returns `None` for. -/
def getTicket (tickets : List (Nat × Ticket)) (tid : Nat) : Option Ticket :=
  (tickets.find? (fun p => p.1 = tid)).map (fun p => p.2)

/-- The body of `find_open_ticket` (client.py lines 56-77): the first ticket
with `closedFlag=false`, status name differing from the client's
`status_closed` and from `"Cancelled"`, whose summary contains the search
string.  The config-specific close status plays no part: the method has no
such parameter. -/
def findOpenTicketBody (tickets : List (Nat × Ticket)) (env : Env)
    (summaryContains : String) : Option (Nat × Ticket) :=
  tickets.find? fun p =>
    ¬ p.2.closedFlag ∧ p.2.statusName ≠ env.statusClosed ∧
      p.2.statusName ≠ "Cancelled" ∧ strContains p.2.summary summaryContains

/-- The parameter names of `ConnectWiseClient.find_open_ticket` after `self`
(client.py line 56). -/
def findOpenTicketParams : List String := ["summary_contains"]

/-- Python call semantics for `cw_client.find_open_ticket(summary, **kwargs)`:
a keyword argument whose name is not a parameter raises `TypeError` before the
method body runs (and `summary_contains` passed both positionally and by
keyword would as well).  `kwargNames` lists the keyword-argument names at the
call site. -/
def findOpenTicketCall (tickets : List (Nat × Ticket)) (env : Env)
    (summaryContains : String) (kwargNames : List String) :
    Except String (Option (Nat × Ticket)) :=
  match kwargNames.find? (fun k => ¬ findOpenTicketParams.contains k) with
  | some k =>
      .error ("TypeError: find_open_ticket() got an unexpected keyword argument " ++ k)
  | none =>
      if kwargNames.contains "summary_contains" then
        .error "TypeError: find_open_ticket() got multiple values for argument summary_contains"
      else .ok (findOpenTicketBody tickets env summaryContains)

/-- Fresh id for a created ticket. -/
def nextTicketId (tickets : List (Nat × Ticket)) : Nat :=
  (tickets.map (fun p => p.1)).foldr max 0 + 1

/-- `close_ticket` (client.py lines 144-183): PATCH the status to
`status_name or status_closed`; a request for an id that is not in the store
is the failure path returning `False`. -/
def closeTicket (tickets : List (Nat × Ticket)) (tid : Nat) (target : String) :
    Bool × List (Nat × Ticket) :=
  if (tickets.find? (fun p => p.1 = tid)).isSome then
    (true, tickets.map fun p =>
      if p.1 = tid then (p.1, { p.2 with statusName := target }) else p)
  else (false, tickets)

/-! ## Pipeline Orchestrator (tasks.py `handle_webhook_logic`, lines 285-805) -/

/-- The AlertConfig fields the pipeline reads.  String columns are
`Option String` (NULL-able).  `close_status` is declared by migration
4f9e6d8c9a3b; `summary_remove_strings` and `global_routing_enabled` are
columns whose model declaration is not under src/ — modelled from the spec
(§3 AlertConfig: "summary-strip list", "tenant-routing toggle") and their
uses in tasks.py. -/
structure Config where
  trigger_field : Option String
  open_value : Option String
  close_value : Option String
  ticket_prefix : Option String
  board : Option String
  status : Option String
  ticket_type : Option String
  subtype : Option String
  item : Option String
  priority : Option String
  customer_id_default : Option String
  description_template : Option String
  summary_remove_strings : Option String
  close_status : Option String
  json_mapping : List (String × String)
  routing_rules : List Rule
  maintenance_windows : Option (List Window)
  global_routing_enabled : Bool
  ai_rca_enabled : Bool
deriving Repr

/-- Per-request inputs: identifiers plus the payload-derived strings the
pipeline reads through plain dict lookups (`monitor.name`/`title`/`name`
fallback, `msg`/`message` fallback) and the serialized payload forms. -/
structure Request where
  configId : String
  requestId : String
  monitorName : String
  msg : String
  payloadJson : String
  safePayloadJson : String
deriving Repr

/-- External collaborators: jsonpath resolution against the raw payload
(`resolve`) and against the masked payload (`resolveSafe`), the regex engine
for routing rules (`matcher re v` = `re.search(re, v, IGNORECASE)` matched),
the `#CW-?(\w+)` group-1 extraction, the LLM, and the record-store reads of
TenantMapping rows and the live company directory. -/
structure Collab where
  resolve : String → Option String
  resolveSafe : String → Option String
  matcher : String → String → Bool
  extractCompanyTag : String → Option String
  llm : String → Option String
  mappings : List GlobalMapping
  companies : List (Option String)

/-- The ProcessingRecord fields the pipeline writes (WebhookLog). -/
structure LogRec where
  status : String
  action : Option String
  ticket_id : Option Nat
  error_message : Option String
  matched_rule : Option String
  retry_count : Nat
deriving DecidableEq, Repr

/-- Result of one `handle_webhook_logic` execution: the collaborator state,
the committed ProcessingRecord, and the exception re-raised to the retry
wrapper (if any). -/
structure Outcome where
  world : World
  record : LogRec
  exn : Option String
deriving Repr

/-- The except-branch at tasks.py lines 787-804: `db.session.rollback()`
reverts the uncommitted record mutations (action, ticket id, matched rule
were not committed yet on these paths), then `failed` and the error text are
committed and the exception is re-raised.  External side effects (Redis, CW)
are not rolled back. -/
def mkFailed (w : World) (e : String) (rc : Nat) : Outcome :=
  ⟨w, ⟨"failed", none, none, some e, none, rc⟩, some e⟩

/-- `mapped_vals` (tasks.py lines 369-424): each overridable field present in
the parsed json mapping resolves through `mapField`. -/
def overridableFields : List String :=
  ["summary", "description", "customer_id", "ticket_type", "subtype", "item",
   "priority", "board", "status", "severity", "impact"]

def mappedVals (resolve : String → Option String)
    (jm : List (String × String)) : List (String × String) :=
  overridableFields.filterMap fun fld =>
    match ovLookup jm fld with
    | some mv => (mapField resolve mv).map (fun v => (fld, v))
    | none => none

/-- `if "fld" in mapped_vals: x = mapped_vals["fld"]` falling back to the
config column. -/
def mvOr (mapped : List (String × String)) (k : String) (d : Option String) :
    Option String :=
  match ovLookup mapped k with
  | some v => some v
  | none => d

def alertName : AlertType → String
  | .DOWN => "DOWN"
  | .UP => "UP"
  | .GENERIC => "GENERIC"

/-- `re.findall(r"\{(\$.+?)\}", description)`: scan for `{$...}` groups; the
non-greedy group is everything up to the next `}`, must be non-empty after the
`$`, and `.` does not cross a newline. -/
def findTemplatePaths : List Char → List String
  | [] => []
  | '{' :: rest =>
      let inner := rest.takeWhile (fun c => c ≠ '}')
      let after := rest.dropWhile (fun c => c ≠ '}')
      match inner with
      | '$' :: c :: cs =>
          if after ≠ [] ∧ ¬ ('$' :: c :: cs).contains '\n' then
            String.mk ('$' :: c :: cs) :: findTemplatePaths after.tail
          else findTemplatePaths rest
      | _ => findTemplatePaths rest
  | _ :: rest => findTemplatePaths rest
  termination_by l => l.length
  decreasing_by
    · have h1 : (rest.dropWhile (fun c => c ≠ '}')).length ≤ rest.length :=
        (List.dropWhile_sublist _).length_le
      have h2 : (rest.dropWhile (fun c => c ≠ '}')).tail.length ≤
          (rest.dropWhile (fun c => c ≠ '}')).length := by
        cases rest.dropWhile (fun c => c ≠ '}') <;> simp
      simp only [List.length_cons]
      omega
    all_goals simp

/-- Description construction (tasks.py lines 684-703): mapped description,
else the per-config template with `{{ … }}` and `{$.path}` substitution
against the masked payload, else the default block. -/
def buildDescription (col : Collab) (req : Request) (cfg : Config)
    (mappedDescription : Option String) : String :=
  if truthy mappedDescription then pyStr mappedDescription
  else if truthy cfg.description_template then
    let d0 := pyReplace (pyReplace (pyReplace (pyStr cfg.description_template)
      "{{ monitor_name }}" req.monitorName) "{{ msg }}" req.msg)
      "{{ request_id }}" req.requestId
    (findTemplatePaths d0.data).foldl
      (fun acc p => pyReplace acc ("\x7b" ++ p ++ "\x7d") (pyStr (col.resolveSafe p))) d0
  else
    "Source: " ++ req.monitorName ++ "\nMessage: " ++ req.msg ++
      "\nRequest ID: " ++ req.requestId ++ "\nPayload: " ++ req.safePayloadJson

/-- Company resolution for ticket creation (tasks.py lines 593-679): mapped
customer id, else the `#CW-…` tag from the display name, else — with tenant
routing enabled — the TenantMapping cascade, else the config default.
Returns the resolved id and the matched-rule trace fragment to append. -/
def resolveCompanyId (col : Collab) (cfg : Config) (mappedCustomer : Option String)
    (monitorName : String) : Option String × Option String :=
  let c0 := pyOrOpt mappedCustomer (col.extractCompanyTag monitorName)
  let step :=
    if ¬ truthy c0 ∧ cfg.global_routing_enabled then
      match extractTenant col.resolve with
      | some tv =>
          let r := resolveTenantBlock col.mappings col.companies col.llm tv
          (r.company, r.trace)
      | none => (c0, none)
    else (c0, none)
  (if truthy step.1 then step.1 else cfg.customer_id_default, step.2)

def rcaPromptFor (payloadJson : String) : String :=
  "Analyze this technical alert and suggest 3 possible root causes and 3 troubleshooting " ++
    "steps. Be concise and technical. Payload: " ++ payloadJson

def dupNoteDetected (a : AlertType) (msg rid : String) : String :=
  "Duplicate " ++ alertName a ++ " alert detected. Updated details:\nMessage: " ++
    msg ++ "\nRequest ID: " ++ rid

/-- The cache-hit handling of a DOWN/GENERIC alert (tasks.py lines 514-567):
viability-flag shortcut for non-replay requests, otherwise live verification
via `get_ticket` (a failed lookup fails open), a note on a usable ticket, or
invalidation of both cache entries and fall-through (`Sum.inr` carries the
world to continue with). -/
def downCacheHit (cfg : Config) (env : Env) (req : Request) (a : AlertType)
    (mr : Option String) (cacheKey cv : String) (w : World) (now rc : Nat) :
    Outcome ⊕ World :=
  match natOfString? cv with
  | none =>
      .inl (mkFailed w ("ValueError: invalid literal for int() with base 10: " ++ cv) rc)
  | some tid =>
      let viableKey := cacheKey ++ ":viable"
      let isReplay := pyStartsWith req.requestId "replay_" ||
        pyStartsWith req.requestId "test_"
      let step :=
        if ¬ isReplay ∧ truthy (cacheGet w now viableKey) then (true, w)
        else
          let wg := { w with getCalls := w.getCalls + 1 }
          match getTicket w.tickets tid with
          | none => (true, wg)
          | some td =>
              let closedStatuses := ["Completed", "Cancelled", "Closed"] ++
                (if env.statusClosed ≠ "" then [env.statusClosed] else []) ++
                (if truthy cfg.close_status then [pyStr cfg.close_status] else [])
              if ¬ td.closedFlag ∧ td.statusName ∉ closedStatuses then
                (true, if ¬ isReplay then cacheSet wg now viableKey "1" env.viabilityTTL
                  else wg)
              else (false, wg)
      if step.1 then
        let w2 := { step.2 with noteCalls := step.2.noteCalls + 1 }
        .inl ⟨w2, ⟨"processed", some "update", some tid, none, mr, rc⟩, none⟩
      else
        .inr (cacheDel (cacheDel step.2 cacheKey) viableKey)

/-- Lines 569-747: the direct search (called with the `close_status` keyword
argument that `find_open_ticket` does not accept) and, past it, the note on a
found ticket or the creation flow with company resolution and optional RCA
note. -/
def downFindAndCreate (cfg : Config) (env : Env) (col : Collab) (req : Request)
    (a : AlertType) (fields : TicketFields) (mapped : List (String × String))
    (mr : Option String) (ticketSummary cacheKey : String) (w : World)
    (now rc : Nat) : Outcome :=
  match findOpenTicketCall w.tickets env ticketSummary ["close_status"] with
  | .error e => mkFailed w e rc
  | .ok res =>
      let w1 := { w with findCalls := w.findCalls + 1 }
      match res with
      | some (tid, _) =>
          let w2 := { w1 with noteCalls := w1.noteCalls + 1 }
          let w3 := cacheSet w2 now cacheKey (toString tid) CACHE_TTL
          ⟨w3, ⟨"processed", some "update", some tid, none, mr, rc⟩, none⟩
      | none =>
          let mappedCustomer := ovLookup mapped "customer_id"
          let cres := resolveCompanyId col cfg mappedCustomer req.monitorName
          let mr1 := match cres.2 with
            | some t => some (pyOr mr "" ++ t)
            | none => mr
          let _description := buildDescription col req cfg (ovLookup mapped "description")
          let tid := nextTicketId w1.tickets
          let newTicket : Ticket :=
            ⟨ticketSummary, false, pyOr fields.status env.statusNew⟩
          let w2 := { w1 with
                      tickets := w1.tickets ++ [(tid, newTicket)],
                      createCalls := w1.createCalls + 1 }
          let w3 := cacheSet w2 now cacheKey (toString tid) CACHE_TTL
          let step :=
            if cfg.ai_rca_enabled then
              match col.llm (rcaPromptFor req.payloadJson) with
              | some r =>
                  if r ≠ "" then
                    ({ w3 with noteCalls := w3.noteCalls + 1 },
                      some (pyOr mr1 "" ++ " [AI RCA]"))
                  else (w3, mr1)
              | none => (w3, mr1)
            else (w3, mr1)
          ⟨step.1, ⟨"processed", some "create", some tid, none, step.2, rc⟩, none⟩

/-- DOWN/GENERIC flow (tasks.py lines 513-747). -/
def downFlow (cfg : Config) (env : Env) (col : Collab) (req : Request)
    (a : AlertType) (fields : TicketFields) (mapped : List (String × String))
    (mr : Option String) (ticketSummary cacheKey : String) (w : World)
    (now rc : Nat) : Outcome :=
  match cacheGet w now cacheKey with
  | some cv =>
      match downCacheHit cfg env req a mr cacheKey cv w now rc with
      | .inl o => o
      | .inr w' =>
          downFindAndCreate cfg env col req a fields mapped mr ticketSummary
            cacheKey w' now rc
  | none =>
      downFindAndCreate cfg env col req a fields mapped mr ticketSummary
        cacheKey w now rc

/-- UP flow (tasks.py lines 749-776 plus the shared finalization 780-785):
candidate from cache or direct search (this call site passes only the
positional argument); close it and delete the ticket-id cache entry on
success; a missing candidate is a no-op that still finalizes `processed`. -/
def upFlow (cfg : Config) (env : Env) (req : Request) (mr : Option String)
    (ticketSummary cacheKey : String) (w : World) (now rc : Nat) : Outcome :=
  let closeWith := fun (tid : Nat) (w0 : World) =>
    let w1 := { w0 with closeCalls := w0.closeCalls + 1 }
    let target := pyOr cfg.close_status env.statusClosed
    let res := closeTicket w1.tickets tid target
    let w2 := { w1 with tickets := res.2 }
    if res.1 then
      let w3 := cacheDel w2 cacheKey
      (⟨w3, ⟨"processed", some "close", some tid, none, mr, rc⟩, none⟩ : Outcome)
    else ⟨w2, ⟨"processed", none, some tid, none, mr, rc⟩, none⟩
  match cacheGet w now cacheKey with
  | some cv =>
      match natOfString? cv with
      | none =>
          mkFailed w ("ValueError: invalid literal for int() with base 10: " ++ cv) rc
      | some tid => closeWith tid w
  | none =>
      let wf := { w with findCalls := w.findCalls + 1 }
      match findOpenTicketBody w.tickets env ticketSummary with
      | some (tid, _) => closeWith tid wf
      | none => ⟨wf, ⟨"processed", none, none, none, mr, rc⟩, none⟩

/-- The running field set entering the routing loop: config columns overridden
by the mapped values (tasks.py lines 334-344 and 430-441). -/
def initialFields (resolve : String → Option String) (cfg : Config) : TicketFields :=
  let mapped := mappedVals resolve cfg.json_mapping
  { board := mvOr mapped "board" cfg.board,
    status := mvOr mapped "status" cfg.status,
    ticket_type := mvOr mapped "ticket_type" cfg.ticket_type,
    subtype := mvOr mapped "subtype" cfg.subtype,
    item := mvOr mapped "item" cfg.item,
    priority := mvOr mapped "priority" cfg.priority }

/-- `handle_webhook_logic` (tasks.py lines 285-805) for an existing, enabled
config: maintenance check, json-mapping resolution, routing rules (with the
`drop` short-circuit), trigger classification, summary construction, and the
per-alert-type flow.  `now` is the cache clock (seconds), `mnow` the same
instant as seen by the maintenance evaluator, `rc` the retry count passed by
the task wrapper. -/
def handle_webhook_logic (cfg : Config) (env : Env) (col : Collab) (req : Request)
    (w : World) (now : Nat) (mnow : MNow) (rc : Nat) : Outcome :=
  if is_in_maintenance cfg.maintenance_windows mnow then
    ⟨w, ⟨"skipped", none, none, some "Skipped: Maintenance Window Active", none, rc⟩,
      none⟩
  else
    let mapped := mappedVals col.resolve cfg.json_mapping
    let fields0 := initialFields col.resolve cfg
    match applyRules col.resolve col.matcher fields0 none cfg.routing_rules with
    | .dropped re _fl mr _n =>
        ⟨w, ⟨"skipped", none, none,
          some ("Skipped: Dropped by routing rule (" ++ re ++ ")"), mr, rc⟩, none⟩
    | .done fields mr _n =>
        let actualVal := pyStr (col.resolve (pyOr cfg.trigger_field "heartbeat.status"))
        let openT := splitTriggers (pyOr cfg.open_value "0")
        let closeT := splitTriggers (pyOr cfg.close_value "1")
        let a := classifyVal actualVal openT closeT
        let pfx := pyOr cfg.ticket_prefix env.cwTicketPrefix
        let ms := ovLookup mapped "summary"
        let base :=
          if truthy ms then
            (if pfx ≠ "" then pfx ++ " " ++ pyStr ms else pyStr ms)
          else
            (if pfx ≠ "" then pfx ++ " " ++ req.monitorName else req.monitorName)
        let removed :=
          if truthy cfg.summary_remove_strings then
            (pySplit (pyStr cfg.summary_remove_strings) ',').foldl
              (fun acc s => pyReplace acc s "") base
          else base
        let ticketSummary :=
          if pyLen removed > 99 then pyTake removed 96 ++ "..." else removed
        let cacheKey := "hookwise_ticket:" ++ req.configId ++ ":" ++ ticketSummary
        match a with
        | .UP => upFlow cfg env req mr ticketSummary cacheKey w now rc
        | _ =>
            downFlow cfg env col req a fields mapped mr ticketSummary cacheKey w
              now rc

/-! ## Retry/DLQ wrapper (tasks.py `process_webhook_task`, lines 196-228)

The Celery task carries `max_retries = 5` and an attempt counter
`self.request.retries` that starts at 0 and counts prior retries.  On an
exception: at `retries >= max_retries` the log row is marked `dlq` with
`"Max retries exceeded: …"` and `retry_count = retries`; below it, the task is
re-scheduled after `(2 ** retries) * jitter` seconds where `jitter` is drawn
uniformly from `[0.8, 1.2]` (modelled as a given sequence of draws). -/

def maxRetries : Nat := 5

/-- The terminal record and the scheduled backoff delays of a unit of work
that raises on every attempt, starting from retry counter `r`. -/
structure RetryTrace where
  delays : List ℚ
  status : String
  retry_count : Nat
  error_message : String
deriving Repr

def runAlwaysFailing (jitter : Nat → ℚ) (excMsg : String) (r : Nat) : RetryTrace :=
  if h : r ≥ maxRetries then
    ⟨[], "dlq", r, "Max retries exceeded: " ++ excMsg⟩
  else
    let t := runAlwaysFailing jitter excMsg (r + 1)
    ⟨((2 : ℚ) ^ r) * jitter r :: t.delays, t.status, t.retry_count, t.error_message⟩
  termination_by maxRetries - r
  decreasing_by
    simp only [maxRetries] at h ⊢
    omega

/-! ## Claim-side definition for the routing-override claim

`FullTicketFields`/`applyOverridesClaimed` follow the words of the claim
("the rule's overrides may set any ticket field (summary, description,
customer_id, ticket_type, subtype, item, priority, board, status, severity,
impact)"); they are compared against the source-translated
`applyOverrides`. -/

structure FullTicketFields where
  summary : Option String
  description : Option String
  customer_id : Option String
  ticket_type : Option String
  subtype : Option String
  item : Option String
  priority : Option String
  board : Option String
  status : Option String
  severity : Option String
  impact : Option String
deriving DecidableEq, Repr

def applyOverridesClaimed (f : FullTicketFields) (ov : List (String × String)) :
    FullTicketFields :=
  let f := match ovLookup ov "summary" with
    | some v => { f with summary := some v }
    | none => f
  let f := match ovLookup ov "description" with
    | some v => { f with description := some v }
    | none => f
  let f := match ovLookup ov "customer_id" with
    | some v => { f with customer_id := some v }
    | none => f
  let f := match ovLookup ov "ticket_type" with
    | some v => { f with ticket_type := some v }
    | none => f
  let f := match ovLookup ov "subtype" with
    | some v => { f with subtype := some v }
    | none => f
  let f := match ovLookup ov "item" with
    | some v => { f with item := some v }
    | none => f
  let f := match ovLookup ov "priority" with
    | some v => { f with priority := some v }
    | none => f
  let f := match ovLookup ov "board" with
    | some v => { f with board := some v }
    | none => f
  let f := match ovLookup ov "status" with
    | some v => { f with status := some v }
    | none => f
  let f := match ovLookup ov "severity" with
    | some v => { f with severity := some v }
    | none => f
  match ovLookup ov "impact" with
  | some v => { f with impact := some v }
  | none => f

/-- The six override keys the routing loop actually reads. -/
def supportedOverrideKeys : List String :=
  ["board", "status", "ticket_type", "subtype", "item", "priority"]

/-- Field selector on the running field set, for stating the last-match-wins
property uniformly over the supported keys. -/
def getTF (f : TicketFields) (k : String) : Option String :=
  if k = "board" then f.board
  else if k = "status" then f.status
  else if k = "ticket_type" then f.ticket_type
  else if k = "subtype" then f.subtype
  else if k = "item" then f.item
  else if k = "priority" then f.priority
  else none

/-! ## Concrete instances used by counterexamples and witnesses -/

/-- A minimal enabled config: every column NULL, no mapping, no rules. -/
def cfg0 : Config := {
  trigger_field := none, open_value := none, close_value := none,
  ticket_prefix := none, board := none, status := none, ticket_type := none,
  subtype := none, item := none, priority := none, customer_id_default := none,
  description_template := none, summary_remove_strings := none, close_status := none,
  json_mapping := [], routing_rules := [], maintenance_windows := none,
  global_routing_enabled := false, ai_rca_enabled := false }

/-- Collaborators for a payload whose `heartbeat.status` is `"0"` (a DOWN
trigger under the default `open_value`). -/
def col0 : Collab := {
  resolve := fun p => if p = "heartbeat.status" then some "0" else none,
  resolveSafe := fun _ => none, matcher := fun _ _ => false,
  extractCompanyTag := fun _ => none, llm := fun _ => none,
  mappings := [], companies := [] }

/-- Same payload shape with `heartbeat.status = "1"` (an UP trigger), plus a
`severity` field and a substring regex engine, for the routing scenarios. -/
def colUp : Collab := { col0 with
  resolve := fun p =>
    if p = "heartbeat.status" then some "1"
    else if p = "$.sev" then some "critical" else none
  matcher := fun re v => strContains v re }

def req0 : Request :=
  ⟨"cfg1", "req1", "web1", "service down", "\x7b\x7d", "\x7b\x7d"⟩

def req2 : Request :=
  ⟨"cfg1", "req2", "web1", "service down", "\x7b\x7d", "\x7b\x7d"⟩

def w0 : World := ⟨[], [], 0, 0, 0, 0, 0⟩

def mnow0 : MNow := ⟨2025, 1, 1, 10, 0, 0, "Wed"⟩

/-- The cache key the pipeline computes for `cfg0`/`req0` (default prefix
`"Alert:"`, monitor name `"web1"`). -/
def key0 : String := "hookwise_ticket:cfg1:Alert: web1"

/-- State after an earlier DOWN alert: ticket 7 cached with a fresh viability
flag, ticket 7 open in ConnectWise. -/
def wHit : World := { w0 with
  cache := [(key0, "7", 90000), (key0 ++ ":viable", "1", 1200)]
  tickets := [(7, ⟨"Alert: web1", false, "New"⟩)] }

/-- State with ticket 42 cached (with its viability flag) and open, used by
the UP-alert scenarios. -/
def wUp : World := { w0 with
  cache := [(key0, "42", 90000), (key0 ++ ":viable", "1", 1200)]
  tickets := [(42, ⟨"Alert: web1", false, "New"⟩)] }

/-- A malformed daily window (non-numeric start time) and a well-formed daily
window covering the whole day. -/
def exBadWindow : Window := ⟨some "daily", some "garbage", some "02:00", []⟩

def exGoodWindow : Window := ⟨some "daily", some "00:00", some "23:59", []⟩

/-- A config whose only routing rule matches (substring `crit` of
`critical`) and tries to override the ticket summary. -/
def cfgSumRule : Config := { cfg0 with
  routing_rules := [⟨"$.sev", "crit", [("summary", "OVERRIDE")], false⟩] }

/-- A config whose only routing rule is a matching drop rule. -/
def cfgDrop : Config := { cfg0 with
  routing_rules := [⟨"$.sev", "crit", [], true⟩] }

/-- The spec example template, and a payload where only `monitor.name`
resolves (to `"web1"`). -/
def exTemplate : String := "$.monitor.name down in $.region"

def exResolve : String → Option String :=
  fun p => if p = "$.monitor.name" then some "web1" else none

def exMappings : List GlobalMapping :=
  [⟨"acme-prod", "ACME"⟩, ⟨"acme-*", "ACMEWILD"⟩]

def exCompanies : List (Option String) := [some "ACME", some "Initech"]

/-! ## Helper lemmas for the Field Mapping Resolver -/

theorem hasRV_append (a b : List (String × Bool)) :
    hasRV (a ++ b) = (hasRV a || hasRV b) := by
  simp [hasRV, List.any_append]

theorem outputParts_eq_keepAll (rest : List (String × Bool)) :
    ∀ pre, hasRV (pre ++ rest) = true → outputParts pre rest = keepAll rest := by
  induction rest with
  | nil => intro pre _; simp [outputParts, keepAll]
  | cons hd tl ih =>
      intro pre h
      obtain ⟨v, b⟩ := hd
      cases b with
      | true =>
          have h' : hasRV ((pre ++ [(v, true)]) ++ tl) = true := by
            rw [List.append_assoc]; simpa using h
          simp only [outputParts, keepAll, List.filterMap_cons]
          rw [ih _ h']
          by_cases hv : v = "" <;> simp [hv, keepAll]
      | false =>
          have hor : (hasRV pre || hasRV tl) = true := by
            rw [hasRV_append] at h
            rcases Bool.or_eq_true_iff.mp h with h1 | h2
            · simp [h1]
            · have : hasRV tl = true := by
                simp only [hasRV, List.any_cons] at h2
                simpa [hasRV] using h2
              simp [this]
          have h' : hasRV ((pre ++ [(v, false)]) ++ tl) = true := by
            rw [List.append_assoc]; simpa using h
          simp only [outputParts, keepAll, List.filterMap_cons]
          rw [ih _ h', hor]
          simp [keepAll]

theorem keepAll_ne_nil (l : List (String × Bool)) (h : hasRV l = true) :
    keepAll l ≠ [] := by
  induction l with
  | nil => simp [hasRV] at h
  | cons hd tl ih =>
      obtain ⟨v, b⟩ := hd
      cases b with
      | false => simp [keepAll]
      | true =>
          by_cases hv : v = ""
          · subst hv
            have htl : hasRV tl = true := by
              simp only [hasRV, List.any_cons] at h
              simpa [hasRV] using h
            simpa [keepAll] using ih htl
          · simp [keepAll, hv]

/-- Membership of a non-empty resolved variable value, phrased on the raw
tokens, coincides with `hasRV` of the resolved list. -/
theorem hasRV_tokens_iff (resolve : String → Option String) (toks : List String) :
    hasRV (toks.map (resolveToken resolve)) = true ↔
      ∃ tok ∈ toks, startsWithDollar tok = true ∧
        ∃ r, resolve tok = some r ∧ pyTrim r ≠ "" := by
  induction toks with
  | nil => simp [hasRV]
  | cons hd tl ih =>
      simp only [List.map_cons, hasRV, List.any_cons, Bool.or_eq_true_iff]
      constructor
      · rintro (h | h)
        · refine ⟨hd, by simp, ?_⟩
          unfold resolveToken at h
          by_cases hs : startsWithDollar hd
          · simp only [hs, if_true] at h
            refine ⟨hs, ?_⟩
            cases hr : resolve hd with
            | none => rw [hr] at h; simp at h
            | some r =>
                rw [hr] at h
                by_cases ht : pyTrim r = ""
                · simp [ht] at h
                · exact ⟨r, rfl, ht⟩
          · simp [hs] at h
        · obtain ⟨tok, htok, hrest⟩ := (ih.mp (by simpa [hasRV] using h))
          exact ⟨tok, by simp [htok], hrest⟩
      · rintro ⟨tok, htok, hs, r, hr, ht⟩
        rcases List.mem_cons.mp htok with heq | hmem
        · subst heq
          left
          simp [resolveToken, hs, hr, ht]
        · right
          have := (ih.mpr ⟨tok, hmem, hs, r, hr, ht⟩)
          simpa [hasRV] using this

/-- C5: for a mapping value that contains whitespace, (1) some variable token
resolving non-empty is exactly `any_jsonpath_resolved`; (2) when no variable
resolves, the field is left unset; (3) when at least one resolves, the output
keeps every literal token and every non-empty variable value in order
(failed variables dropped) joined by single spaces. -/
theorem mapField_template_spec (resolve : String → Option String) (v : String)
    (hws : containsChar v ' ' = true) :
    (hasRV ((tokenize v).map (resolveToken resolve)) = true ↔
      ∃ tok ∈ tokenize v, startsWithDollar tok = true ∧
        ∃ r, resolve tok = some r ∧ pyTrim r ≠ "") ∧
    (hasRV ((tokenize v).map (resolveToken resolve)) = false →
      mapField resolve v = none) ∧
    (hasRV ((tokenize v).map (resolveToken resolve)) = true →
      mapField resolve v =
        some (joinSpace
          (keepAll ((tokenize v).map (resolveToken resolve))))) := by
  refine ⟨hasRV_tokens_iff resolve (tokenize v), ?_, ?_⟩
  · intro h
    simp [mapField, hws, resolveTemplate, h]
  · intro h
    have hparts := outputParts_eq_keepAll ((tokenize v).map (resolveToken resolve))
      [] (by simpa using h)
    have hne := keepAll_ne_nil _ h
    simp [mapField, hws, resolveTemplate, h, hparts, hne]

/-! ## Claim C1 -/

/-- C1 (code bug evaluation): a DOWN alert whose cache lookup misses never
reaches the open-ticket search: `handle_webhook_logic` passes the keyword
argument `close_status` to `ConnectWiseClient.find_open_ticket`
(tasks.py line 569), whose only parameter is `summary_contains`
(client.py line 56), so Python raises `TypeError`; the pipeline records
`failed` and the ticketing gateway receives zero calls, instead of searching
with the config close status excluded, caching a hit, or creating a ticket. -/
theorem c1_down_cache_miss_raises_typeerror :
    (handle_webhook_logic cfg0 defaultEnv col0 req0 w0 1000 mnow0 0).exn =
      some "TypeError: find_open_ticket() got an unexpected keyword argument close_status" ∧
    (handle_webhook_logic cfg0 defaultEnv col0 req0 w0 1000 mnow0 0).record.status =
      "failed" ∧
    (handle_webhook_logic cfg0 defaultEnv col0 req0 w0 1000 mnow0 0).world = w0 ∧
    findOpenTicketParams.contains "close_status" = false := by
  decide

/-! ## Claim C2 -/

/-- C2 (code bug evaluation): of the two-DOWN-alert scenario, the first alert
(empty cache) raises the `find_open_ticket` `TypeError` before any
`createTicket` call, so the pair produces zero creates rather than one; the
second half of the claim — a cache hit with a fresh viability flag on a
non-replay request adds one note directly, with no `get_ticket`
verification and no create — does hold on the code. -/
theorem c2_two_down_alerts_dedup :
    ((handle_webhook_logic cfg0 defaultEnv col0 req0 w0 1000 mnow0 0).world.createCalls
        = 0 ∧
      (handle_webhook_logic cfg0 defaultEnv col0 req0 w0 1000 mnow0 0).world.noteCalls
        = 0 ∧
      (handle_webhook_logic cfg0 defaultEnv col0 req0 w0 1000 mnow0 0).exn =
        some "TypeError: find_open_ticket() got an unexpected keyword argument close_status") ∧
    ((handle_webhook_logic cfg0 defaultEnv col0 req2 wHit 1000 mnow0 0).world.noteCalls
        = 1 ∧
      (handle_webhook_logic cfg0 defaultEnv col0 req2 wHit 1000 mnow0 0).world.createCalls
        = 0 ∧
      (handle_webhook_logic cfg0 defaultEnv col0 req2 wHit 1000 mnow0 0).world.getCalls
        = 0 ∧
      (handle_webhook_logic cfg0 defaultEnv col0 req2 wHit 1000 mnow0 0).record.status
        = "processed" ∧
      (handle_webhook_logic cfg0 defaultEnv col0 req2 wHit 1000 mnow0 0).record.action
        = some "update" ∧
      (handle_webhook_logic cfg0 defaultEnv col0 req2 wHit 1000 mnow0 0).record.ticket_id
        = some 7) := by
  decide

/-! ## Claim C3 -/

/-- C3 (counterexample): an UP alert that closes the cached ticket 42 deletes
only the ticket-id cache entry; the companion viability-flag entry
(`…:viable`) is still present afterwards, contradicting "deletes both cache
entries" (tasks.py line 761 deletes `cache_key` alone). -/
theorem c3_up_close_keeps_viability_entry :
    (handle_webhook_logic cfg0 defaultEnv colUp req0 wUp 1000 mnow0 0).record.status
      = "processed" ∧
    (handle_webhook_logic cfg0 defaultEnv colUp req0 wUp 1000 mnow0 0).record.action
      = some "close" ∧
    (handle_webhook_logic cfg0 defaultEnv colUp req0 wUp 1000 mnow0 0).world.closeCalls
      = 1 ∧
    cacheGet (handle_webhook_logic cfg0 defaultEnv colUp req0 wUp 1000 mnow0 0).world
      1000 key0 = none ∧
    cacheGet (handle_webhook_logic cfg0 defaultEnv colUp req0 wUp 1000 mnow0 0).world
      1000 (key0 ++ ":viable") = some "1" := by
  decide

/-! ## Claim C7 -/

/-- C7 (counterexample): a malformed daily window aborts the whole
maintenance evaluation — with the well-formed all-day window alone the
evaluator returns in-maintenance at 10:00, but prefixed by the malformed
entry the list evaluates to not-in-maintenance, contradicting "the remaining
entries are still evaluated". -/
theorem c7_malformed_window_aborts_list :
    checkWindow exBadWindow mnow0 = .error () ∧
    is_in_maintenance (some [exGoodWindow]) mnow0 = true ∧
    is_in_maintenance (some [exBadWindow, exGoodWindow]) mnow0 = false :=
  ⟨rfl, by decide, by decide⟩

/-! ## Claim C9 -/

/-- C9 (counterexample): a matching routing rule overriding `summary` has no
effect: the claim-side `applyOverridesClaimed` sets the summary, but the
code's `applyOverrides` leaves the running field set unchanged, and
end-to-end the pipeline still resolves the cache key from the un-overridden
summary (closing cached ticket 42 under `key0`). -/
theorem c9_summary_override_ignored :
    (applyOverridesClaimed
        ⟨none, none, none, none, none, none, none, none, none, none, none⟩
        [("summary", "OVERRIDE")]).summary = some "OVERRIDE" ∧
    applyOverrides ⟨none, none, none, none, none, none⟩ [("summary", "OVERRIDE")] =
      ⟨none, none, none, none, none, none⟩ ∧
    (handle_webhook_logic cfgSumRule defaultEnv colUp req0 wUp 1000 mnow0 0).record.matched_rule
      = some "Match: crit on $.sev" ∧
    (handle_webhook_logic cfgSumRule defaultEnv colUp req0 wUp 1000 mnow0 0).record.action
      = some "close" ∧
    (handle_webhook_logic cfgSumRule defaultEnv colUp req0 wUp 1000 mnow0 0).record.ticket_id
      = some 42 ∧
    cacheGet (handle_webhook_logic cfgSumRule defaultEnv colUp req0 wUp 1000 mnow0 0).world
      1000 key0 = none := by
  decide

/-! ## Cache helper lemmas -/

theorem find?_filter_ne_self (c : List (String × String × Nat)) (k : String) :
    (c.filter (fun e => e.1 ≠ k)).find? (fun e => e.1 = k) = none := by
  rw [List.find?_filter]
  refine List.find?_eq_none.mpr fun x _ => ?_
  by_cases hx : x.1 = k <;> simp [hx]

theorem find?_filter_ne_other (c : List (String × String × Nat)) (k k' : String)
    (h : k' ≠ k) :
    (c.filter (fun e => e.1 ≠ k)).find? (fun e => e.1 = k') =
      c.find? (fun e => e.1 = k') := by
  rw [List.find?_filter]
  congr 1
  funext a
  by_cases ha : a.1 = k
  · have hb : a.1 ≠ k' := by rw [ha]; exact fun hh => h hh.symm
    simp [ha, hb]
    exact fun hk => h hk.symm
  · simp [ha]

theorem cacheGet_cacheDel_self (w : World) (now : Nat) (k : String) :
    cacheGet (cacheDel w k) now k = none := by
  simp only [cacheGet, cacheDel]
  rw [find?_filter_ne_self]

theorem cacheGet_cacheDel_other (w : World) (now : Nat) (k k' : String)
    (h : k' ≠ k) :
    cacheGet (cacheDel w k) now k' = cacheGet w now k' := by
  simp only [cacheGet, cacheDel]
  rw [find?_filter_ne_other _ _ _ h]

/-! ## Claim C3 (amended statement) -/

/-- C3 (amended): an UP alert resolving a cached candidate whose close
succeeds makes exactly one `closeTicket` call and deletes the ticket-id cache
entry — but only that entry: every other key (in particular the companion
viability flag) is untouched and left to expire by TTL; and an UP alert with
no candidate (cache miss, search miss) finalizes `processed` with no action
and no exception. -/
theorem c3_up_flow_deletes_ticket_entry_only (cfg : Config) (env : Env)
    (req : Request) (mr : Option String) (ts ck : String) (w : World)
    (now rc : Nat) (cv : String) (tid : Nat) :
    (cacheGet w now ck = some cv → natOfString? cv = some tid →
      (w.tickets.find? (fun p => p.1 = tid)).isSome = true →
      (upFlow cfg env req mr ts ck w now rc).world.closeCalls = w.closeCalls + 1 ∧
      cacheGet (upFlow cfg env req mr ts ck w now rc).world now ck = none ∧
      (∀ k, k ≠ ck →
        cacheGet (upFlow cfg env req mr ts ck w now rc).world now k =
          cacheGet w now k) ∧
      (upFlow cfg env req mr ts ck w now rc).record.status = "processed" ∧
      (upFlow cfg env req mr ts ck w now rc).record.action = some "close" ∧
      (upFlow cfg env req mr ts ck w now rc).exn = none) ∧
    (cacheGet w now ck = none → findOpenTicketBody w.tickets env ts = none →
      (upFlow cfg env req mr ts ck w now rc).record.status = "processed" ∧
      (upFlow cfg env req mr ts ck w now rc).record.action = none ∧
      (upFlow cfg env req mr ts ck w now rc).exn = none ∧
      (upFlow cfg env req mr ts ck w now rc).world.closeCalls = w.closeCalls ∧
      (upFlow cfg env req mr ts ck w now rc).world.cache = w.cache) := by
  constructor
  · intro hcv hparse hex
    simp only [upFlow, hcv, hparse, closeTicket, hex, if_true]
    refine ⟨?_, ?_, ?_, ?_, ?_, ?_⟩ <;>
      first
        | rfl
        | trivial
        | exact cacheGet_cacheDel_self _ now ck
        | (intro k hk; exact cacheGet_cacheDel_other _ now ck k hk)
  · intro hmiss hfind
    simp [upFlow, hmiss, hfind]

theorem c3_up_flow_deletes_ticket_entry_only_witness :
    (cacheGet wUp 1000 key0 = some "42" ∧
      natOfString? "42" = some 42 ∧
      (wUp.tickets.find? (fun p => p.1 = 42)).isSome = true ∧
      cacheGet (upFlow cfg0 defaultEnv req0 none "Alert: web1" key0 wUp 1000 0).world
        1000 key0 = none) ∧
    (cacheGet w0 1000 key0 = none ∧
      findOpenTicketBody w0.tickets defaultEnv "Alert: web1" = none ∧
      (upFlow cfg0 defaultEnv req0 none "Alert: web1" key0 w0 1000 0).record.status =
        "processed") :=
  ⟨⟨by decide, by decide, by decide,
      ((c3_up_flow_deletes_ticket_entry_only cfg0 defaultEnv req0 none
        "Alert: web1" key0 wUp 1000 0 "42" 42).1 (by decide) (by decide)
        (by decide)).2.1⟩,
    ⟨by decide, by decide,
      ((c3_up_flow_deletes_ticket_entry_only cfg0 defaultEnv req0 none
        "Alert: web1" key0 w0 1000 0 "42" 42).2 (by decide) (by decide)).1⟩⟩

/-! ## Claim C4 -/

theorem applyRules_dropped_of_match (resolve : String → Option String)
    (matcher : String → String → Bool) :
    ∀ (rules : List Rule) (f : TicketFields) (mr : Option String),
      (∃ r ∈ rules, r.path ≠ "" ∧ r.regex ≠ "" ∧
        matcher r.regex (pyStr (resolve r.path)) = true ∧ r.drop = true) →
      ∃ re fl mr' n, applyRules resolve matcher f mr rules =
        .dropped re fl mr' n := by
  intro rules
  induction rules with
  | nil => rintro f mr ⟨r, hr, _⟩; simp at hr
  | cons r rs ih =>
      rintro f mr ⟨r0, hr0, hp0, hre0, hm0, hd0⟩
      by_cases hc : r.path ≠ "" ∧ r.regex ≠ ""
      · by_cases hm : matcher r.regex (pyStr (resolve r.path)) = true
        · by_cases hd : r.drop = true
          · refine ⟨r.regex, f,
              some ("Match: " ++ r.regex ++ " on " ++ r.path), 1, ?_⟩
            simp [applyRules, hc, hm, hd]
          · have hr0' : r0 ∈ rs := by
              rcases List.mem_cons.mp hr0 with h | h
              · subst h; exact absurd hd0 hd
              · exact h
            obtain ⟨re, fl, mr', n, hrec⟩ :=
              ih (applyOverrides f r.overrides)
                (some ("Match: " ++ r.regex ++ " on " ++ r.path))
                ⟨r0, hr0', hp0, hre0, hm0, hd0⟩
            refine ⟨re, fl, mr', n + 1, ?_⟩
            simp [applyRules, hc, hm, hd, hrec]
        · have hr0' : r0 ∈ rs := by
            rcases List.mem_cons.mp hr0 with h | h
            · subst h; exact absurd hm0 hm
            · exact h
          obtain ⟨re, fl, mr', n, hrec⟩ := ih f mr ⟨r0, hr0', hp0, hre0, hm0, hd0⟩
          refine ⟨re, fl, mr', n + 1, ?_⟩
          simp [applyRules, hc, hm, hrec]
      · have hr0' : r0 ∈ rs := by
          rcases List.mem_cons.mp hr0 with h | h
          · subst h; exact absurd ⟨hp0, hre0⟩ hc
          · exact h
        obtain ⟨re, fl, mr', n, hrec⟩ := ih f mr ⟨r0, hr0', hp0, hre0, hm0, hd0⟩
        refine ⟨re, fl, mr', n + 1, ?_⟩
        simp [applyRules, hc, hrec]

theorem applyRules_append_dropped (resolve : String → Option String)
    (matcher : String → String → Bool) :
    ∀ (rs₁ : List Rule) (rs₂ : List Rule) (f : TicketFields) (mr : Option String)
      (re : String) (fl : TicketFields) (mr' : Option String) (n : Nat),
      applyRules resolve matcher f mr rs₁ = .dropped re fl mr' n →
      applyRules resolve matcher f mr (rs₁ ++ rs₂) = .dropped re fl mr' n := by
  intro rs₁
  induction rs₁ with
  | nil => intro rs₂ f mr re fl mr' n h; simp [applyRules] at h
  | cons r rs ih =>
      intro rs₂ f mr re fl mr' n h
      simp only [List.cons_append]
      simp only [applyRules] at h ⊢
      by_cases hc : r.path ≠ "" ∧ r.regex ≠ ""
      · rw [if_pos hc] at h ⊢
        by_cases hm : matcher r.regex (pyStr (resolve r.path)) = true
        · rw [if_pos hm] at h ⊢
          by_cases hd : r.drop = true
          · rw [if_pos hd] at h ⊢
            exact h
          · rw [if_neg hd] at h ⊢
            cases hrec : applyRules resolve matcher (applyOverrides f r.overrides)
                (some ("Match: " ++ r.regex ++ " on " ++ r.path)) rs with
            | dropped a b c d =>
                rw [hrec] at h
                rw [ih rs₂ _ _ _ _ _ _ hrec]
                exact h
            | done a b c =>
                rw [hrec] at h
                simp at h
        · rw [if_neg hm] at h ⊢
          cases hrec : applyRules resolve matcher f mr rs with
          | dropped a b c d =>
              rw [hrec] at h
              rw [ih rs₂ _ _ _ _ _ _ hrec]
              exact h
          | done a b c =>
              rw [hrec] at h
              simp at h
      · rw [if_neg hc] at h ⊢
        cases hrec : applyRules resolve matcher f mr rs with
        | dropped a b c d =>
            rw [hrec] at h
            rw [ih rs₂ _ _ _ _ _ _ hrec]
            exact h
        | done a b c =>
            rw [hrec] at h
            simp at h

/-- C4: when a routing rule with a truthy `drop` override matches, the
pipeline terminates for the request with a `skipped` record, the collaborator
state (cache, tickets, every ticketing-gateway call counter) is untouched, no
exception is raised, and any rules appended after the existing list are never
evaluated (the run with the extended rule list is identical). -/
theorem c4_drop_rule_terminates_pipeline (cfg : Config) (env : Env)
    (col : Collab) (req : Request) (w : World) (now : Nat) (mnow : MNow)
    (rc : Nat) (rules₂ : List Rule)
    (hmw : is_in_maintenance cfg.maintenance_windows mnow = false)
    (hmatch : ∃ r ∈ cfg.routing_rules, r.path ≠ "" ∧ r.regex ≠ "" ∧
      col.matcher r.regex (pyStr (col.resolve r.path)) = true ∧ r.drop = true) :
    (handle_webhook_logic cfg env col req w now mnow rc).record.status =
      "skipped" ∧
    (handle_webhook_logic cfg env col req w now mnow rc).world = w ∧
    (handle_webhook_logic cfg env col req w now mnow rc).exn = none ∧
    handle_webhook_logic { cfg with routing_rules := cfg.routing_rules ++ rules₂ }
        env col req w now mnow rc =
      handle_webhook_logic cfg env col req w now mnow rc := by
  obtain ⟨re, fl, mr', n, hd⟩ :=
    applyRules_dropped_of_match col.resolve col.matcher cfg.routing_rules
      (initialFields col.resolve cfg) none hmatch
  have hd2 := applyRules_append_dropped col.resolve col.matcher cfg.routing_rules
    rules₂ (initialFields col.resolve cfg) none re fl mr' n hd
  have hout : handle_webhook_logic cfg env col req w now mnow rc =
      ⟨w, ⟨"skipped", none, none,
        some ("Skipped: Dropped by routing rule (" ++ re ++ ")"), mr', rc⟩,
        none⟩ := by
    simp only [handle_webhook_logic, hmw, Bool.false_eq_true, if_false, hd]
  have hd2' : applyRules col.resolve col.matcher
      (initialFields col.resolve
        { cfg with routing_rules := cfg.routing_rules ++ rules₂ })
      none (cfg.routing_rules ++ rules₂) = RouteResult.dropped re fl mr' n := hd2
  have hout2 : handle_webhook_logic
      { cfg with routing_rules := cfg.routing_rules ++ rules₂ }
      env col req w now mnow rc =
      ⟨w, ⟨"skipped", none, none,
        some ("Skipped: Dropped by routing rule (" ++ re ++ ")"), mr', rc⟩,
        none⟩ := by
    simp only [handle_webhook_logic, hmw, Bool.false_eq_true, if_false, hd2']
  rw [hout, hout2]
  exact ⟨rfl, rfl, rfl, rfl⟩

theorem c4_drop_rule_terminates_pipeline_witness :
    (is_in_maintenance cfgDrop.maintenance_windows mnow0 = false ∧
      ∃ r ∈ cfgDrop.routing_rules, r.path ≠ "" ∧ r.regex ≠ "" ∧
        colUp.matcher r.regex (pyStr (colUp.resolve r.path)) = true ∧
        r.drop = true) ∧
    (handle_webhook_logic cfgDrop defaultEnv colUp req0 w0 1000 mnow0 0).record.status
      = "skipped" ∧
    (handle_webhook_logic cfgDrop defaultEnv colUp req0 w0 1000 mnow0 0).world = w0 :=
  ⟨⟨by decide, by decide⟩,
    (c4_drop_rule_terminates_pipeline cfgDrop defaultEnv colUp req0 w0 1000 mnow0
      0 [] (by decide) (by decide)).1,
    (c4_drop_rule_terminates_pipeline cfgDrop defaultEnv colUp req0 w0 1000 mnow0
      0 [] (by decide) (by decide)).2.1⟩

theorem mapField_template_spec_witness :
    containsChar exTemplate ' ' = true ∧
    mapField exResolve exTemplate = some "web1 down in" ∧
    mapField (fun _ => none) exTemplate = none := by
  refine ⟨by decide, ?_, ?_⟩
  · have h := (mapField_template_spec exResolve exTemplate (by decide)).2.2 (by decide)
    exact h.trans (by decide)
  · exact (mapField_template_spec (fun _ => none) exTemplate (by decide)).2.1
      (by decide)

/-! ## Claim C6 -/

/-- C6: a unit of work that raises on every attempt re-executes after
`2 ** retries` seconds scaled by the jitter draw (a factor in `[0.8, 1.2]`)
for each retry counter below 5, schedules exactly five re-executions, and
then marks the record `dlq` carrying the final error message with
`retry_count = 5`, retrying no further. -/
theorem retry_wrapper_dlq_after_five (jitter : Nat → ℚ) (e : String)
    (hj : ∀ i, (4 : ℚ)/5 ≤ jitter i ∧ jitter i ≤ 6/5) :
    (runAlwaysFailing jitter e 0).status = "dlq" ∧
    (runAlwaysFailing jitter e 0).retry_count = 5 ∧
    (runAlwaysFailing jitter e 0).error_message = "Max retries exceeded: " ++ e ∧
    (runAlwaysFailing jitter e 0).delays =
      (List.range 5).map (fun i => (2 : ℚ)^i * jitter i) ∧
    (∀ i, i < 5 →
      (4 : ℚ)/5 * 2^i ≤ (2 : ℚ)^i * jitter i ∧
      (2 : ℚ)^i * jitter i ≤ (6 : ℚ)/5 * 2^i) := by
  have hrun : runAlwaysFailing jitter e 0 =
      ⟨[(2:ℚ)^0 * jitter 0, (2:ℚ)^1 * jitter 1, (2:ℚ)^2 * jitter 2,
        (2:ℚ)^3 * jitter 3, (2:ℚ)^4 * jitter 4], "dlq", 5,
        "Max retries exceeded: " ++ e⟩ := by
    rw [runAlwaysFailing]; norm_num [maxRetries]
    rw [runAlwaysFailing]; norm_num [maxRetries]
    rw [runAlwaysFailing]; norm_num [maxRetries]
    rw [runAlwaysFailing]; norm_num [maxRetries]
    rw [runAlwaysFailing]; norm_num [maxRetries]
    rw [runAlwaysFailing]; norm_num [maxRetries]
  rw [hrun]
  refine ⟨rfl, rfl, rfl, by simp [List.range_succ], ?_⟩
  intro i _
  constructor
  · have h1 := (hj i).1
    have hp : (0 : ℚ) < 2^i := by positivity
    nlinarith
  · have h2 := (hj i).2
    have hp : (0 : ℚ) < 2^i := by positivity
    nlinarith

theorem retry_wrapper_dlq_after_five_witness :
    (∀ i : Nat, (4 : ℚ)/5 ≤ (fun _ => (1 : ℚ)) i ∧ ((fun _ => (1 : ℚ)) i) ≤ 6/5) ∧
    (runAlwaysFailing (fun _ => (1 : ℚ)) "boom" 0).status = "dlq" ∧
    (runAlwaysFailing (fun _ => (1 : ℚ)) "boom" 0).retry_count = 5 :=
  ⟨fun _ => ⟨by norm_num, by norm_num⟩,
    (retry_wrapper_dlq_after_five (fun _ => (1 : ℚ)) "boom"
      (fun _ => ⟨by norm_num, by norm_num⟩)).1,
    (retry_wrapper_dlq_after_five (fun _ => (1 : ℚ)) "boom"
      (fun _ => ⟨by norm_num, by norm_num⟩)).2.1⟩

/-! ## Claim C7 (amended statement) -/

/-- C7 (amended): a malformed window entry does not merely skip itself — the
exception it raises is caught around the whole loop, so the evaluator
returns not-in-maintenance for the entire list and the entries after the
malformed one are never evaluated (the result is `false` for every possible
suffix). -/
theorem malformed_window_fails_open_whole_list (pre post : List Window)
    (wd : Window) (n : MNow)
    (hpre : ∀ p ∈ pre, checkWindow p n = .ok false)
    (hw : checkWindow wd n = .error ()) :
    is_in_maintenance (some (pre ++ wd :: post)) n = false := by
  have haux : evalWindows n (pre ++ wd :: post) = .error () := by
    induction pre with
    | nil =>
        simp only [List.nil_append, evalWindows, hw]
        rfl
    | cons p ps ih =>
        have hp := hpre p (by simp)
        have ih' := ih (fun q hq => hpre q (by simp [hq]))
        simp only [List.cons_append, evalWindows, hp]
        exact ih'
  simp [is_in_maintenance, haux]

theorem malformed_window_fails_open_whole_list_witness :
    (∀ p ∈ ([] : List Window), checkWindow p mnow0 = .ok false) ∧
    checkWindow exBadWindow mnow0 = .error () ∧
    is_in_maintenance (some ([] ++ exBadWindow :: [exGoodWindow])) mnow0 = false :=
  ⟨fun p hp => absurd hp (List.not_mem_nil p), rfl,
    malformed_window_fails_open_whole_list [] [exGoodWindow] exBadWindow mnow0
      (fun p hp => absurd hp (List.not_mem_nil p)) rfl⟩

/-! ## Claim C8 -/

/-- C8: company resolution tries the exact TenantMapping match before the
wildcard match before the LLM fallback before the static default, never the
reverse: an exact hit decides without consulting the LLM; a wildcard hit
(absent an exact one) does too; the LLM is consulted only when zero
deterministic matches exist; an LLM answer determines a company only when it
is verbatim one of the offered identifiers and not `"NONE"`; a failing LLM
collaborator (always `none`) yields no match, after which
`resolveCompanyId` falls back to the config's static default rather than
failing. -/
theorem tenant_resolution_cascade (mappings : List GlobalMapping)
    (companies : List (Option String)) (llm : String → Option String)
    (t : String) :
    (∀ m, mappings.find? (fun x => x.tenant_value = t) = some m →
      (resolveTenantBlock mappings companies llm t).company = some m.company_id ∧
      (resolveTenantBlock mappings companies llm t).llmConsulted = false) ∧
    (mappings.find? (fun x => x.tenant_value = t) = none →
      ∀ m, wildcardLookup mappings t = some m →
      (resolveTenantBlock mappings companies llm t).company = some m.company_id ∧
      (resolveTenantBlock mappings companies llm t).llmConsulted = false) ∧
    ((resolveTenantBlock mappings companies llm t).llmConsulted = true →
      mappings.find? (fun x => x.tenant_value = t) = none ∧
      wildcardLookup mappings t = none) ∧
    (∀ c, (resolveTenantBlock mappings companies llm t).llmConsulted = true →
      (resolveTenantBlock mappings companies llm t).company = some c →
      c ∈ availableCompanies companies ∧ c ≠ "NONE") ∧
    ((∀ p, llm p = none) →
      mappings.find? (fun x => x.tenant_value = t) = none →
      wildcardLookup mappings t = none →
      (resolveTenantBlock mappings companies llm t).company = none) ∧
    (∀ (cfg : Config) (col : Collab) (mc : Option String) (mn : String),
      truthy (pyOrOpt mc (col.extractCompanyTag mn)) = false →
      cfg.global_routing_enabled = true →
      extractTenant col.resolve = some t →
      (resolveTenantBlock col.mappings col.companies col.llm t).company = none →
      (resolveCompanyId col cfg mc mn).1 = cfg.customer_id_default) := by
  refine ⟨?_, ?_, ?_, ?_, ?_, ?_⟩
  · intro m hm
    simp [resolveTenantBlock, hm]
  · intro hex m hm
    simp [resolveTenantBlock, hex, hm]
  · intro hllm
    cases hex : mappings.find? (fun x => x.tenant_value = t) with
    | some m => simp [resolveTenantBlock, hex] at hllm
    | none =>
        cases hwc : wildcardLookup mappings t with
        | some m => simp [resolveTenantBlock, hex, hwc] at hllm
        | none => exact ⟨rfl, rfl⟩
  · intro c hllm hc
    cases hex : mappings.find? (fun x => x.tenant_value = t) with
    | some m => simp [resolveTenantBlock, hex] at hllm
    | none =>
        cases hwc : wildcardLookup mappings t with
        | some m => simp [resolveTenantBlock, hex, hwc] at hllm
        | none =>
            by_cases hco : companies = []
            · simp [resolveTenantBlock, hex, hwc, hco] at hllm
            · by_cases hav : availableCompanies companies = []
              · simp [resolveTenantBlock, hex, hwc, hco, hav] at hllm
              · cases hresp : llm (llmPromptFor t
                    (joinCommaSpace (availableCompanies companies))) with
                | none => simp [resolveTenantBlock, hex, hwc, hco, hav, hresp] at hc
                | some resp =>
                    by_cases hacc : resp ≠ "" ∧ pyTrim resp ≠ "NONE" ∧
                      pyTrim resp ∈ availableCompanies companies
                    · have : (resolveTenantBlock mappings companies llm t).company =
                          some (pyTrim resp) := by
                        simp [resolveTenantBlock, hex, hwc, hco, hav, hresp, hacc]
                      rw [this] at hc
                      obtain rfl : pyTrim resp = c := by
                        exact Option.some_injective _ hc
                      exact ⟨hacc.2.2, hacc.2.1⟩
                    · simp [resolveTenantBlock, hex, hwc, hco, hav, hresp,
                        hacc] at hc
  · intro hfail hex hwc
    by_cases hco : companies = []
    · simp [resolveTenantBlock, hex, hwc, hco]
    · by_cases hav : availableCompanies companies = []
      · simp [resolveTenantBlock, hex, hwc, hco, hav]
      · simp [resolveTenantBlock, hex, hwc, hco, hav, hfail]
  · intro cfg col mc mn h1 h2 htv hblock
    cases hc0 : pyOrOpt mc (col.extractCompanyTag mn) with
    | none => simp [resolveCompanyId, hc0, htv, h2, hblock, truthy]
    | some s =>
        rw [hc0] at h1
        have hs : s = "" := by
          simpa [truthy] using h1
        subst hs
        simp [resolveCompanyId, hc0, htv, h2, hblock, truthy]

theorem tenant_resolution_cascade_witness :
    exMappings.find? (fun x => x.tenant_value = "acme-prod") =
      some ⟨"acme-prod", "ACME"⟩ ∧
    (resolveTenantBlock exMappings exCompanies (fun _ => none)
      "acme-prod").company = some "ACME" ∧
    (resolveTenantBlock exMappings exCompanies (fun _ => none)
      "acme-prod").llmConsulted = false :=
  ⟨by decide,
    ((tenant_resolution_cascade exMappings exCompanies (fun _ => none)
      "acme-prod").1 ⟨"acme-prod", "ACME"⟩ (by decide)).1,
    ((tenant_resolution_cascade exMappings exCompanies (fun _ => none)
      "acme-prod").1 ⟨"acme-prod", "ACME"⟩ (by decide)).2⟩

/-! ## Claim C9 (amended statement) -/

/-- C9 (amended): a matching rule's overrides are applied onto the running
field set with last-match-wins, but only for the six keys the loop reads
(board, status, ticket_type, subtype, item, priority); overrides whose keys
lie outside this set leave the field set unchanged. -/
theorem routing_overrides_amended (resolve : String → Option String)
    (matcher : String → String → Bool) (f : TicketFields) (mr : Option String) :
    (∀ (r1 r2 : Rule) (k v1 v2 : String),
      k ∈ supportedOverrideKeys →
      r1.path ≠ "" → r1.regex ≠ "" →
      matcher r1.regex (pyStr (resolve r1.path)) = true → r1.drop = false →
      r1.overrides = [(k, v1)] →
      r2.path ≠ "" → r2.regex ≠ "" →
      matcher r2.regex (pyStr (resolve r2.path)) = true → r2.drop = false →
      r2.overrides = [(k, v2)] →
      applyRules resolve matcher f mr [r1, r2] =
        .done (applyOverrides (applyOverrides f [(k, v1)]) [(k, v2)])
          (some ("Match: " ++ r2.regex ++ " on " ++ r2.path)) 2 ∧
      getTF (applyOverrides (applyOverrides f [(k, v1)]) [(k, v2)]) k =
        some v2) ∧
    (∀ ov : List (String × String),
      (∀ p ∈ ov, p.1 ∉ supportedOverrideKeys) → applyOverrides f ov = f) := by
  constructor
  · intro r1 r2 k v1 v2 hk hp1 hre1 hm1 hd1 hov1 hp2 hre2 hm2 hd2 hov2
    constructor
    · simp only [applyRules]
      rw [if_pos ⟨hp1, hre1⟩, if_pos hm1, if_neg (by simp [hd1]),
        if_pos ⟨hp2, hre2⟩, if_pos hm2, if_neg (by simp [hd2]), hov1, hov2]
    · simp only [supportedOverrideKeys, List.mem_cons, List.mem_singleton] at hk
      rcases hk with rfl | rfl | rfl | rfl | rfl | hk
      · simp [applyOverrides, ovLookup, getTF]
      · simp [applyOverrides, ovLookup, getTF]
      · simp [applyOverrides, ovLookup, getTF]
      · simp [applyOverrides, ovLookup, getTF]
      · simp [applyOverrides, ovLookup, getTF]
      · simp at hk
        subst hk
        simp [applyOverrides, ovLookup, getTF]
  · intro ov hov
    have hlk : ∀ k, k ∈ supportedOverrideKeys → ovLookup ov k = none := by
      intro k hk
      have hfind : ov.find? (fun p => p.1 = k) = none :=
        List.find?_eq_none.mpr fun p hp => by
          simp only [decide_eq_true_eq]
          intro he
          exact hov p hp (he ▸ hk)
      simp [ovLookup, hfind]
    simp [applyOverrides,
      hlk "board" (by simp [supportedOverrideKeys]),
      hlk "status" (by simp [supportedOverrideKeys]),
      hlk "ticket_type" (by simp [supportedOverrideKeys]),
      hlk "subtype" (by simp [supportedOverrideKeys]),
      hlk "item" (by simp [supportedOverrideKeys]),
      hlk "priority" (by simp [supportedOverrideKeys])]

theorem routing_overrides_amended_witness :
    ("board" ∈ supportedOverrideKeys ∧
      applyRules colUp.resolve colUp.matcher ⟨none, none, none, none, none, none⟩
        none [⟨"$.sev", "crit", [("board", "B1")], false⟩,
          ⟨"$.sev", "critical", [("board", "B2")], false⟩] =
        .done ⟨some "B2", none, none, none, none, none⟩
          (some "Match: critical on $.sev") 2) ∧
    (applyOverrides ⟨some "B0", none, none, none, none, none⟩
      [("summary", "X"), ("impact", "I")] =
      ⟨some "B0", none, none, none, none, none⟩) := by
  constructor
  · refine ⟨by decide, ?_⟩
    have h := ((routing_overrides_amended colUp.resolve colUp.matcher
      ⟨none, none, none, none, none, none⟩ none).1
      ⟨"$.sev", "crit", [("board", "B1")], false⟩
      ⟨"$.sev", "critical", [("board", "B2")], false⟩
      "board" "B1" "B2" (by decide) (by decide) (by decide) (by decide)
      (by decide) rfl (by decide) (by decide) (by decide) (by decide) rfl).1
    exact h.trans (by decide)
  · exact (routing_overrides_amended colUp.resolve colUp.matcher
      ⟨some "B0", none, none, none, none, none⟩ none).2
      [("summary", "X"), ("impact", "I")] (by decide)

/-! ## Claim C10 -/

/-- C10: a trigger-field or rule path that does not resolve is stringified to
the literal `"None"`: the classifier then compares `"None"` against the
open/close token lists (DOWN/UP when `"None"` is configured, GENERIC
otherwise), and a routing rule's regex is searched against the string
`"None"` (the `matcher` argument is the case-insensitive
`re.search` collaborator). -/
theorem missing_lookup_stringifies_to_none_string
    (resolve : String → Option String) (matcher : String → String → Bool)
    (trigger : String) (openT closeT : List String) (r : Rule)
    (f : TicketFields) (mr : Option String)
    (htrig : resolve trigger = none) (hpath : resolve r.path = none)
    (hp : r.path ≠ "") (hre : r.regex ≠ "") :
    pyStr (resolve trigger) = "None" ∧
    ("None" ∈ openT → classifyVal (pyStr (resolve trigger)) openT closeT = .DOWN) ∧
    ("None" ∉ openT → "None" ∈ closeT →
      classifyVal (pyStr (resolve trigger)) openT closeT = .UP) ∧
    ("None" ∉ openT → "None" ∉ closeT →
      classifyVal (pyStr (resolve trigger)) openT closeT = .GENERIC) ∧
    applyRules resolve matcher f mr [r] =
      (if matcher r.regex "None" = true then
        (if r.drop = true then
          RouteResult.dropped r.regex f
            (some ("Match: " ++ r.regex ++ " on " ++ r.path)) 1
        else
          RouteResult.done (applyOverrides f r.overrides)
            (some ("Match: " ++ r.regex ++ " on " ++ r.path)) 1)
      else RouteResult.done f mr 1) := by
  have hns : pyStr (resolve trigger) = "None" := by rw [htrig]; rfl
  refine ⟨hns, ?_, ?_, ?_, ?_⟩
  · intro h
    simp [classifyVal, hns, h]
  · intro h1 h2
    simp [classifyVal, hns, h1, h2]
  · intro h1 h2
    simp [classifyVal, hns, h1, h2]
  · by_cases hm : matcher r.regex "None" = true <;>
      by_cases hd : r.drop = true <;>
      simp [applyRules, hpath, hp, hre, hm, hd, pyStr]

theorem missing_lookup_stringifies_to_none_string_witness :
    ((fun _ : String => (none : Option String)) "heartbeat.status" = none ∧
      ("None" : String) ∈ ["None"] ∧
      classifyVal (pyStr ((fun _ : String => (none : Option String))
        "heartbeat.status")) ["None"] [] = .DOWN) ∧
    applyRules (fun _ => none) (fun re v => strContains v re)
      ⟨none, none, none, none, none, none⟩ none
      [⟨"$.x", "one", [], false⟩] =
      .done ⟨none, none, none, none, none, none⟩ (some "Match: one on $.x") 1 := by
  constructor
  · refine ⟨rfl, by decide, ?_⟩
    exact (missing_lookup_stringifies_to_none_string (fun _ => none)
      (fun re v => strContains v re) "heartbeat.status" ["None"] []
      ⟨"$.x", "one", [], false⟩ ⟨none, none, none, none, none, none⟩ none
      rfl rfl (by decide) (by decide)).2.1 (by decide)
  · have h := (missing_lookup_stringifies_to_none_string (fun _ => none)
      (fun re v => strContains v re) "heartbeat.status" ["None"] []
      ⟨"$.x", "one", [], false⟩ ⟨none, none, none, none, none, none⟩ none
      rfl rfl (by decide) (by decide)).2.2.2.2
    exact h.trans (by decide)

end Hookwise
